import Mathlib

/-!
Verification of the Customer Call Analyzer backend (`app.py`).

The program text is embedded shallowly: Python strings become `List Char`
(`Text` below), the module-level `client` object becomes a Boolean flag
(`client is not None`), the external Groq call becomes an explicit
`GroqOutcome` parameter describing what the provider did (transport
exception, unparseable body, or a parsed JSON object with optional
`sentiment` / `summary` string fields), and the CSV log file becomes an
`Option (List (List Text))`: `none` when the file does not exist, otherwise
the list of its rows (each row a list of four fields).
-/

/-- Python `str` values are modelled as lists of characters. -/
abbrev Text := List Char

/-- Python `str.lower()` (the keywords and templates are ASCII). -/
def lowerText (t : Text) : Text := t.map Char.toLower

/-- Python `str.strip()`: drop whitespace from both ends. -/
def pyStrip (t : Text) : Text :=
  ((t.dropWhile Char.isWhitespace).reverse.dropWhile Char.isWhitespace).reverse

/-- Python substring test `w in t`. -/
def occursIn (w : Text) : Text → Bool
  | [] => w.isEmpty
  | c :: rest => w.isPrefixOf (c :: rest) || occursIn w rest

/-- Keyword list `POSITIVE_KEYWORDS` from app.py lines 25-29. -/
def POSITIVE_KEYWORDS : List Text :=
  ["thank", "thanks", "great", "excellent", "wonderful", "amazing", "perfect",
   "satisfied", "happy", "pleased", "love", "fantastic", "awesome", "good",
   "helpful", "friendly", "professional", "quick", "efficient", "resolved"
  ].map String.toList

/-- Keyword list `NEGATIVE_KEYWORDS` from app.py lines 31-35. -/
def NEGATIVE_KEYWORDS : List Text :=
  ["terrible", "awful", "horrible", "bad", "worst", "hate", "angry", "furious",
   "frustrated", "disappointed", "unsatisfied", "complaint", "problem", "issue",
   "broken", "failed", "wrong", "error", "refund", "cancel", "unacceptable"
  ].map String.toList

/-- The three sentiment labels the system can produce. -/
inductive Sentiment
  | Positive
  | Neutral
  | Negative
  deriving DecidableEq, Repr

/-- The string the Python code returns for each label. -/
def Sentiment.toText : Sentiment → Text
  | .Positive => "Positive".toList
  | .Neutral => "Neutral".toList
  | .Negative => "Negative".toList

/-- Embeds `fallback_sentiment_analysis` (app.py lines 37-50): lower-case the
input, count keyword hits on both lists, compare. -/
def fallback_sentiment_analysis (transcript : Text) : Sentiment :=
  let text_lower := lowerText transcript
  let positive_count := POSITIVE_KEYWORDS.countP (fun word => occursIn word text_lower)
  let negative_count := NEGATIVE_KEYWORDS.countP (fun word => occursIn word text_lower)
  if positive_count > negative_count then .Positive
  else if negative_count > positive_count then .Negative
  else .Neutral

/-- Specification-level count: the number of DISTINCT keywords of `kws`
occurring as substrings of the lower-cased text. -/
def distinctKeywordMatches (kws : List Text) (t : Text) : Nat :=
  ((kws.filter (fun word => occursIn word (lowerText t))).dedup).length

/-- The analysis dictionary both analysis paths return: keys `summary` and
`sentiment` (always present after sanitization). -/
structure AnalysisDict where
  summary : Text
  sentiment : Text
  deriving DecidableEq, Repr

/-- The long summary template of `mock_analyze_transcript` (app.py line 64). -/
def longSummaryTemplate (sentiment : Text) : Text :=
  "Customer interaction regarding service inquiry. The conversation covered multiple topics and the customer expressed ".toList
    ++ lowerText sentiment ++ " feedback about the experience.".toList

/-- The short summary template of `mock_analyze_transcript` (app.py line 66). -/
def shortSummaryTemplate (sentiment : Text) : Text :=
  "Brief customer contact with ".toList
    ++ lowerText sentiment ++ " outcome. Issue appears to have been addressed appropriately.".toList

/-- Embeds `mock_analyze_transcript` (app.py lines 53-71): fallback sentiment plus a
templated summary chosen by transcript length. -/
def mock_analyze_transcript (transcript : Text) : AnalysisDict :=
  let sentiment := (fallback_sentiment_analysis transcript).toText
  let summary :=
    if transcript.length > 200 then longSummaryTemplate sentiment
    else shortSummaryTemplate sentiment
  ⟨summary, sentiment⟩

/-- What the external provider call did, as observed by the program: a
transport-level exception, a body that fails JSON parsing, or a parsed JSON
object with optional string fields `sentiment` and `summary`. -/
inductive GroqOutcome
  | transportFailure
  | parseFailure
  | parsed (sentimentField : Option Text) (summaryField : Option Text)
  deriving DecidableEq, Repr

/-- List `valid_sentiments` of app.py line 123. -/
def VALID_SENTIMENTS : List Text :=
  ["Positive", "Neutral", "Negative"].map String.toList

/-- The replacement summary of app.py line 130, referencing the (possibly
just-corrected) sentiment. -/
def genSummary (sentiment : Text) : Text :=
  "Customer service interaction with ".toList ++ lowerText sentiment ++ " outcome.".toList

/-- Embeds `analyze_transcript_with_groq` (app.py lines 74-139): any exception or
JSON parse failure falls back to `mock_analyze_transcript`; a parsed object
is sanitized field-wise (lines 119-132). -/
def analyze_transcript_with_groq (transcript : Text) (outcome : GroqOutcome) : AnalysisDict :=
  match outcome with
  | .transportFailure => mock_analyze_transcript transcript
  | .parseFailure => mock_analyze_transcript transcript
  | .parsed sentimentField summaryField =>
    let sentiment :=
      match sentimentField with
      | some s => if s ∈ VALID_SENTIMENTS then s else (fallback_sentiment_analysis transcript).toText
      | none => (fallback_sentiment_analysis transcript).toText
    let summary :=
      match summaryField with
      | some m => if m = [] ∨ (pyStrip m).length < 10 then genSummary sentiment else m
      | none => genSummary sentiment
    ⟨summary, sentiment⟩

/-- The analysis dispatch of app.py line 188: provider path when a client is
configured and the (stripped) transcript is longer than 10 characters,
deterministic fallback otherwise. -/
def analysisDispatch (client : Bool) (transcript : Text) (outcome : GroqOutcome) : AnalysisDict :=
  if client && decide (transcript.length > 10) then
    analyze_transcript_with_groq transcript outcome
  else
    mock_analyze_transcript transcript

/-- Which route app.py line 188 takes. -/
inductive Route
  | provider
  | fallbackRoute
  deriving DecidableEq, Repr

/-- Route selection of app.py line 188, as an observable value. -/
def chosenRoute (client : Bool) (transcript : Text) : Route :=
  if client && decide (transcript.length > 10) then .provider else .fallbackRoute

/-- Responses of the `/analyze` endpoint relevant to the claims: a 200 JSON
body or a 400 client error with a message. -/
inductive Response
  | ok (transcript summary sentiment method : Text)
  | clientError (msg : Text)
  deriving DecidableEq, Repr

/-- Is the response an HTTP 400 validation error? -/
def Response.is400 : Response → Bool
  | .clientError _ => true
  | .ok _ _ _ _ => false

/-- The method field of a 200 response. -/
def Response.methodOf : Response → Option Text
  | .ok _ _ _ m => some m
  | .clientError _ => none

/-- The `analyze` endpoint (app.py lines 172-204), without the persistence
step: `body` is the `transcript` field of the request JSON (`none` when the
body is missing or has no such field). -/
def analyze (client : Bool) (body : Option Text) (outcome : GroqOutcome) : Response :=
  match body with
  | none => .clientError ("Request must contain transcript field.".toList)
  | some raw =>
    let transcript := pyStrip raw
    if transcript.isEmpty then .clientError ("Transcript cannot be empty.".toList)
    else if transcript.length < 5 then
      .clientError ("Transcript too short for meaningful analysis.".toList)
    else
      let analysis_result := analysisDispatch client transcript outcome
      .ok transcript analysis_result.summary analysis_result.sentiment
        (if client then "Groq API".toList else "Fallback Analysis".toList)

/-- CSV header row written on first append (app.py line 148). -/
def CSV_HEADER : List Text :=
  ["Transcript", "Summary", "Sentiment", "Confidence"].map String.toList

/-- The stored transcript field (app.py line 158): first 500 characters, with
an ellipsis marker appended exactly when the transcript is longer than 500. -/
def truncatedTranscript (t : Text) : Text :=
  t.take 500 ++ (if t.length > 500 then "...".toList else [])

/-- The row `save_to_csv` writes (app.py lines 154-162). -/
def csvRow (client : Bool) (transcript summary sentiment : Text) : List Text :=
  [truncatedTranscript transcript, summary, sentiment,
   if client then "High".toList else "Medium".toList]

/-- Embeds `save_to_csv` (app.py lines 142-164) acting on the file state: create the
file with a header first if it does not exist, then append one row. -/
def save_to_csv (client : Bool) (transcript summary sentiment : Text)
    (file : Option (List (List Text))) : Option (List (List Text)) :=
  match file with
  | none => some [CSV_HEADER, csvRow client transcript summary sentiment]
  | some rows => some (rows ++ [csvRow client transcript summary sentiment])

/-- One record handed to persistence: the startup flag plus the response
fields `save_to_csv` reads. -/
structure PendingRecord where
  client : Bool
  transcript : Text
  summary : Text
  sentiment : Text
  deriving DecidableEq, Repr

/-- Append a sequence of records, threading the file state. -/
def appendRecords (file : Option (List (List Text))) (recs : List PendingRecord) :
    Option (List (List Text)) :=
  recs.foldl (fun f r => save_to_csv r.client r.transcript r.summary r.sentiment f) file

/-- The row a single record produces. -/
def rowOfRecord (r : PendingRecord) : List Text :=
  csvRow r.client r.transcript r.summary r.sentiment

/-- The full `/analyze` endpoint including persistence (app.py lines 172-204):
`save_to_csv` runs only after validation and analysis succeed. -/
def analyzeEndpoint (client : Bool) (body : Option Text) (outcome : GroqOutcome)
    (file : Option (List (List Text))) : Response × Option (List (List Text)) :=
  match analyze client body outcome with
  | .ok t summary sentiment m => (.ok t summary sentiment m, save_to_csv client t summary sentiment file)
  | .clientError msg => (.clientError msg, file)

theorem countP_eq_distinct (kws : List Text) (h : kws.Nodup) (t : Text) :
    kws.countP (fun word => occursIn word (lowerText t)) = distinctKeywordMatches kws t := by
  rw [distinctKeywordMatches, List.Nodup.dedup (h.filter _), List.countP_eq_length_filter]

/-- C1: for every input string (the empty string included), the keyword
classifier lower-cases it, counts the distinct positive-set and negative-set
keywords occurring as substrings (each keyword at most once), returns
Positive when the positive count is strictly greater, Negative when the
negative count is strictly greater, Neutral when equal, and always returns
exactly one of the three values. -/
theorem c1_keyword_classifier_decision_rule (t : Text) :
    fallback_sentiment_analysis t =
      (if distinctKeywordMatches POSITIVE_KEYWORDS t > distinctKeywordMatches NEGATIVE_KEYWORDS t
        then Sentiment.Positive
        else if distinctKeywordMatches NEGATIVE_KEYWORDS t > distinctKeywordMatches POSITIVE_KEYWORDS t
          then Sentiment.Negative
          else Sentiment.Neutral) ∧
    (fallback_sentiment_analysis t = Sentiment.Positive ∨
     fallback_sentiment_analysis t = Sentiment.Neutral ∨
     fallback_sentiment_analysis t = Sentiment.Negative) := by
  have hp : POSITIVE_KEYWORDS.Nodup := by decide
  have hn : NEGATIVE_KEYWORDS.Nodup := by decide
  constructor
  · simp only [fallback_sentiment_analysis]
    rw [countP_eq_distinct _ hp, countP_eq_distinct _ hn]
  · cases hfs : fallback_sentiment_analysis t
    · exact Or.inl rfl
    · exact Or.inr (Or.inl rfl)
    · exact Or.inr (Or.inr rfl)

theorem pyStrip_length_le (t : Text) : (pyStrip t).length ≤ t.length := by
  unfold pyStrip
  rw [List.length_reverse]
  have h1 : ((t.dropWhile Char.isWhitespace).reverse.dropWhile Char.isWhitespace).length
      ≤ (t.dropWhile Char.isWhitespace).reverse.length :=
    (List.dropWhile_sublist _).length_le
  have h2 : (t.dropWhile Char.isWhitespace).length ≤ t.length :=
    (List.dropWhile_sublist _).length_le
  rw [List.length_reverse] at h1
  omega

theorem toText_valid (s : Sentiment) : s.toText ∈ VALID_SENTIMENTS := by
  cases s <;> decide

theorem mock_sentiment_eq (t : Text) :
    (mock_analyze_transcript t).sentiment = (fallback_sentiment_analysis t).toText := rfl

theorem mock_summary_eq (t : Text) :
    (mock_analyze_transcript t).summary =
      if t.length > 200 then longSummaryTemplate ((fallback_sentiment_analysis t).toText)
      else shortSummaryTemplate ((fallback_sentiment_analysis t).toText) := rfl

theorem length_shortSummaryTemplate (s : Text) : 10 ≤ (shortSummaryTemplate s).length := by
  unfold shortSummaryTemplate
  rw [List.length_append, List.length_append]
  have h : ("Brief customer contact with ".toList).length = 28 := rfl
  omega

theorem length_longSummaryTemplate (s : Text) : 10 ≤ (longSummaryTemplate s).length := by
  unfold longSummaryTemplate
  rw [List.length_append, List.length_append]
  have h : ("Customer interaction regarding service inquiry. The conversation covered multiple topics and the customer expressed ".toList).length = 116 := rfl
  omega

theorem length_genSummary (s : Text) : 10 ≤ (genSummary s).length := by
  unfold genSummary
  rw [List.length_append, List.length_append]
  have h : ("Customer service interaction with ".toList).length = 34 := rfl
  omega

theorem mock_wellformed (t : Text) :
    (mock_analyze_transcript t).sentiment ∈ VALID_SENTIMENTS ∧
    10 ≤ (mock_analyze_transcript t).summary.length := by
  refine ⟨mock_sentiment_eq t ▸ toText_valid _, ?_⟩
  rw [mock_summary_eq]
  split
  · exact length_longSummaryTemplate _
  · exact length_shortSummaryTemplate _

theorem groq_parsed_sentiment (t : Text) (sf mf : Option Text) :
    (analyze_transcript_with_groq t (.parsed sf mf)).sentiment =
      match sf with
      | some s => if s ∈ VALID_SENTIMENTS then s else (fallback_sentiment_analysis t).toText
      | none => (fallback_sentiment_analysis t).toText := rfl

theorem groq_parsed_summary (t : Text) (sf mf : Option Text) :
    (analyze_transcript_with_groq t (.parsed sf mf)).summary =
      match mf with
      | some m =>
        if m = [] ∨ (pyStrip m).length < 10 then
          genSummary ((analyze_transcript_with_groq t (.parsed sf mf)).sentiment)
        else m
      | none => genSummary ((analyze_transcript_with_groq t (.parsed sf mf)).sentiment) := rfl

theorem groq_wellformed (t : Text) (o : GroqOutcome) :
    (analyze_transcript_with_groq t o).sentiment ∈ VALID_SENTIMENTS ∧
    10 ≤ (analyze_transcript_with_groq t o).summary.length := by
  cases o with
  | transportFailure => exact mock_wellformed t
  | parseFailure => exact mock_wellformed t
  | parsed sf mf =>
    constructor
    · rw [groq_parsed_sentiment]
      cases sf with
      | none => exact toText_valid _
      | some s =>
        by_cases hs : s ∈ VALID_SENTIMENTS
        · simp [hs]
        · simp only [hs, if_false]
          exact toText_valid _
    · rw [groq_parsed_summary]
      cases mf with
      | none => exact length_genSummary _
      | some m =>
        by_cases hm : m = [] ∨ (pyStrip m).length < 10
        · simp only [hm, if_true]
          exact length_genSummary _
        · simp only [hm, if_false]
          push_neg at hm
          have := pyStrip_length_le m
          omega

theorem dispatch_wellformed (client : Bool) (t : Text) (o : GroqOutcome) :
    (analysisDispatch client t o).sentiment ∈ VALID_SENTIMENTS ∧
    10 ≤ (analysisDispatch client t o).summary.length := by
  unfold analysisDispatch
  split
  · exact groq_wellformed t o
  · exact mock_wellformed t

/-- C2: for every transcript with trimmed length at least 5 and every
provider outcome, the analysis step is total: transport failures and JSON
parse failures degrade to the deterministic fallback, and the response is a
well-formed 200 whose sentiment is one of the three enum values and whose
summary is at least 10 characters long. -/
theorem c2_analysis_never_raises_wellformed (client : Bool) (raw : Text) (outcome : GroqOutcome)
    (h : 5 ≤ (pyStrip raw).length) :
    analyze_transcript_with_groq (pyStrip raw) .transportFailure
        = mock_analyze_transcript (pyStrip raw) ∧
    analyze_transcript_with_groq (pyStrip raw) .parseFailure
        = mock_analyze_transcript (pyStrip raw) ∧
    ∃ su se m, analyze client (some raw) outcome = .ok (pyStrip raw) su se m ∧
      se ∈ VALID_SENTIMENTS ∧ 10 ≤ su.length := by
  refine ⟨rfl, rfl, (analysisDispatch client (pyStrip raw) outcome).summary,
    (analysisDispatch client (pyStrip raw) outcome).sentiment,
    (if client then "Groq API".toList else "Fallback Analysis".toList), ?_,
    (dispatch_wellformed client (pyStrip raw) outcome).1,
    (dispatch_wellformed client (pyStrip raw) outcome).2⟩
  have hne : (pyStrip raw).isEmpty = false := by
    cases hh : pyStrip raw
    · rw [hh] at h; simp at h
    · rfl
  have hlt : ¬((pyStrip raw).length < 5) := by omega
  simp [analyze, hne, hlt]

/-- C3: the provider path is attempted exactly when the client is configured
and the trimmed transcript is strictly longer than 10 characters; otherwise
the fallback path runs, whose sentiment is the keyword classifier result and
whose summary is the long template for transcripts over 200 characters and
the short template otherwise. -/
theorem c3_routing_policy_and_fallback_shape (client : Bool) (t : Text) (outcome : GroqOutcome) :
    (chosenRoute client t = .provider ↔ (client = true ∧ 10 < t.length)) ∧
    (chosenRoute client t = .fallbackRoute →
      analysisDispatch client t outcome = mock_analyze_transcript t) ∧
    (chosenRoute client t = .provider →
      analysisDispatch client t outcome = analyze_transcript_with_groq t outcome) ∧
    (mock_analyze_transcript t).sentiment = (fallback_sentiment_analysis t).toText ∧
    (mock_analyze_transcript t).summary =
      (if 200 < t.length then longSummaryTemplate ((fallback_sentiment_analysis t).toText)
       else shortSummaryTemplate ((fallback_sentiment_analysis t).toText)) := by
  by_cases hc : (client && decide (t.length > 10)) = true
  · have hr : chosenRoute client t = .provider := by simp [chosenRoute, hc]
    have hd : analysisDispatch client t outcome = analyze_transcript_with_groq t outcome := by
      simp [analysisDispatch, hc]
    have hp : client = true ∧ 10 < t.length := by
      simpa [Bool.and_eq_true, decide_eq_true_eq] using hc
    refine ⟨⟨fun _ => hp, fun _ => hr⟩, ?_, fun _ => hd, rfl, mock_summary_eq t⟩
    intro hbad
    rw [hr] at hbad
    exact absurd hbad (by simp)
  · have hr : chosenRoute client t = .fallbackRoute := by simp [chosenRoute, hc]
    have hd : analysisDispatch client t outcome = mock_analyze_transcript t := by
      simp [analysisDispatch, hc]
    refine ⟨?_, fun _ => hd, ?_, rfl, mock_summary_eq t⟩
    · constructor
      · intro hbad
        rw [hr] at hbad
        exact absurd hbad (by simp)
      · intro hcl
        simp only [Bool.and_eq_true, decide_eq_true_eq] at hc
        exact absurd ⟨hcl.1, hcl.2⟩ hc
    · intro hbad
      rw [hr] at hbad
      exact absurd hbad (by simp)

/-- C4: a parseable provider response is sanitized field-wise: a missing or
invalid sentiment is overwritten by the keyword classifier applied to the
transcript, and a missing summary, or one whose trimmed length is below 10,
is overwritten by the generated sentence referencing the possibly-corrected
sentiment; a summary of trimmed length at least 10 is kept verbatim. -/
theorem c4_provider_response_sanitized (t : Text) (sf mf : Option Text) :
    (∀ s, sf = some s → s ∈ VALID_SENTIMENTS →
      (analyze_transcript_with_groq t (.parsed sf mf)).sentiment = s) ∧
    (∀ s, sf = some s → s ∉ VALID_SENTIMENTS →
      (analyze_transcript_with_groq t (.parsed sf mf)).sentiment
        = (fallback_sentiment_analysis t).toText) ∧
    (sf = none →
      (analyze_transcript_with_groq t (.parsed sf mf)).sentiment
        = (fallback_sentiment_analysis t).toText) ∧
    (mf = none →
      (analyze_transcript_with_groq t (.parsed sf mf)).summary
        = genSummary ((analyze_transcript_with_groq t (.parsed sf mf)).sentiment)) ∧
    (∀ m, mf = some m → (pyStrip m).length < 10 →
      (analyze_transcript_with_groq t (.parsed sf mf)).summary
        = genSummary ((analyze_transcript_with_groq t (.parsed sf mf)).sentiment)) ∧
    (∀ m, mf = some m → 10 ≤ (pyStrip m).length →
      (analyze_transcript_with_groq t (.parsed sf mf)).summary = m) := by
  refine ⟨?_, ?_, ?_, ?_, ?_, ?_⟩
  · intro s hs hmem
    subst hs
    rw [groq_parsed_sentiment]
    simp [hmem]
  · intro s hs hmem
    subst hs
    rw [groq_parsed_sentiment]
    simp [hmem]
  · intro hs
    subst hs
    rw [groq_parsed_sentiment]
  · intro hm
    subst hm
    rw [groq_parsed_summary]
  · intro m hm hlen
    subst hm
    rw [groq_parsed_summary]
    simp [hlen]
  · intro m hm hlen
    subst hm
    rw [groq_parsed_summary]
    have hmne : ¬(m = [] ∨ (pyStrip m).length < 10) := by
      rintro (rfl | hbad)
      · have : pyStrip ([] : Text) = [] := rfl
        rw [this] at hlen
        simp at hlen
      · omega
    simp [hmne]

/-- C5: the /analyze endpoint returns a 400 client error exactly when the
transcript field is missing, empty after trimming, or of trimmed length
strictly below 5; every transcript of trimmed length at least 5 passes
validation. -/
theorem c5_validation_400_iff_short_or_missing (client : Bool) (body : Option Text) (outcome : GroqOutcome) :
    (analyze client body outcome).is400 = true ↔
      (body = none ∨ ∃ raw, body = some raw ∧
        (pyStrip raw = [] ∨ (pyStrip raw).length < 5)) := by
  cases body with
  | none => simp [analyze, Response.is400]
  | some raw =>
    by_cases he : (pyStrip raw).isEmpty = true
    · have hnil : pyStrip raw = [] := by
        cases hh : pyStrip raw
        · rfl
        · rw [hh] at he; simp at he
      simp [analyze, he, Response.is400, hnil]
    · have hne : (pyStrip raw).isEmpty = false := by
        cases hh : (pyStrip raw).isEmpty
        · rfl
        · exact absurd hh he
      have hnnil : pyStrip raw ≠ [] := by
        intro hh
        rw [hh] at hne
        simp at hne
      by_cases hlen : (pyStrip raw).length < 5
      · simp [analyze, hne, hlen, Response.is400]
      · simp [analyze, hne, hlen, Response.is400, hnnil]

/-- C6: the persisted Transcript field is the first element of the CSV row;
it equals the first 500 characters followed by the ellipsis marker when the
transcript is strictly longer than 500 characters, and the transcript
verbatim (no marker) when it is at most 500 characters. -/
theorem c6_transcript_truncation_law (client : Bool) (t su se : Text) :
    (csvRow client t su se).head? = some (truncatedTranscript t) ∧
    (500 < t.length → truncatedTranscript t = t.take 500 ++ "...".toList) ∧
    (t.length ≤ 500 → truncatedTranscript t = t) := by
  refine ⟨rfl, ?_, ?_⟩
  · intro h
    simp [truncatedTranscript, h]
  · intro h
    have hn : ¬(t.length > 500) := by omega
    simp [truncatedTranscript, hn, List.take_of_length_le h]

theorem appendRecords_some (rows : List (List Text)) (recs : List PendingRecord) :
    appendRecords (some rows) recs = some (rows ++ recs.map rowOfRecord) := by
  induction recs generalizing rows with
  | nil => simp [appendRecords]
  | cons r rest ih =>
    have hstep : appendRecords (some rows) (r :: rest)
        = appendRecords (some (rows ++ [rowOfRecord r])) rest := rfl
    rw [hstep, ih]
    simp

/-- C7: starting from a nonexistent log file, appending N (at least one)
records yields exactly the header followed by one row per record, hence
N + 1 lines, with the header written only on the first append; appending to
an existing file only adds one row at the end, never rewriting or deleting
an existing line. -/
theorem c7_append_only_header_plus_rows (recs : List PendingRecord) (h : recs ≠ []) :
    appendRecords none recs = some (CSV_HEADER :: recs.map rowOfRecord) ∧
    (CSV_HEADER :: recs.map rowOfRecord).length = recs.length + 1 ∧
    (∀ (rows : List (List Text)) (r : PendingRecord),
      save_to_csv r.client r.transcript r.summary r.sentiment (some rows)
        = some (rows ++ [rowOfRecord r])) := by
  refine ⟨?_, by simp, fun rows r => rfl⟩
  cases recs with
  | nil => exact absurd rfl h
  | cons r rest =>
    have hstep : appendRecords none (r :: rest)
        = appendRecords (some [CSV_HEADER, rowOfRecord r]) rest := rfl
    rw [hstep, appendRecords_some]
    simp

/-- C8: the Confidence field of every appended row is High exactly when the
provider client was configured at process start and Medium otherwise; it is a
function of the startup flag alone and does not depend on the record being
persisted (in particular not on per-call provider success). -/
theorem c8_confidence_from_startup_flag (client : Bool) (t su se : Text) :
    (csvRow client t su se)[3]? = some (if client then "High".toList else "Medium".toList) ∧
    ((csvRow client t su se)[3]? = some ("High".toList) ↔ client = true) ∧
    (∀ t2 su2 se2 : Text, (csvRow client t su se)[3]? = (csvRow client t2 su2 se2)[3]?) := by
  refine ⟨rfl, ?_, fun t2 su2 se2 => rfl⟩
  cases client
  · simp [csvRow]
  · simp [csvRow]

/-- C9: on every successful response the method field is Groq API exactly
when the client is configured, independent of the path that produced the
analysis: with a configured client and trimmed length between 5 and 10 the
fallback computes the result yet method is Groq API, and the same holds when
the provider call fails. -/
theorem c9_method_reflects_client_flag (raw : Text) (outcome : GroqOutcome) (h : 5 ≤ (pyStrip raw).length) :
    (analyze true (some raw) outcome).methodOf = some ("Groq API".toList) ∧
    (analyze false (some raw) outcome).methodOf = some ("Fallback Analysis".toList) ∧
    ((pyStrip raw).length ≤ 10 →
      analyze true (some raw) outcome =
        .ok (pyStrip raw) (mock_analyze_transcript (pyStrip raw)).summary
          (mock_analyze_transcript (pyStrip raw)).sentiment ("Groq API".toList)) ∧
    (analyze true (some raw) .transportFailure =
      .ok (pyStrip raw) (mock_analyze_transcript (pyStrip raw)).summary
        (mock_analyze_transcript (pyStrip raw)).sentiment ("Groq API".toList)) := by
  have hne : (pyStrip raw).isEmpty = false := by
    cases hh : pyStrip raw
    · rw [hh] at h; simp at h
    · rfl
  have hlt : ¬((pyStrip raw).length < 5) := by omega
  refine ⟨?_, ?_, ?_, ?_⟩
  · simp [analyze, hne, hlt, Response.methodOf]
  · simp [analyze, hne, hlt, Response.methodOf]
  · intro hsmall
    have hdis : analysisDispatch true (pyStrip raw) outcome
        = mock_analyze_transcript (pyStrip raw) := by
      have hcond : ¬((true && decide ((pyStrip raw).length > 10)) = true) := by
        simp
        omega
      simp [analysisDispatch, hcond]
    simp [analyze, hne, hlt, hdis]
  · have hdis : analysisDispatch true (pyStrip raw) .transportFailure
        = mock_analyze_transcript (pyStrip raw) := by
      by_cases hcond : (true && decide ((pyStrip raw).length > 10)) = true
      · simp [analysisDispatch, hcond]
        rfl
      · simp [analysisDispatch, hcond]
    simp [analyze, hne, hlt, hdis]

/-- C10: whenever /analyze returns a 400 validation error, the persisted
file state is completely unchanged (no row appended, no header-only file
created), because persistence runs only after validation succeeds. -/
theorem c10_validation_failure_leaves_log_unchanged (client : Bool) (body : Option Text) (outcome : GroqOutcome)
    (file : Option (List (List Text))) (h : (analyze client body outcome).is400 = true) :
    (analyzeEndpoint client body outcome file).2 = file ∧
    (analyzeEndpoint client body outcome file).1 = analyze client body outcome := by
  cases ha : analyze client body outcome with
  | ok t su se m =>
    rw [ha] at h
    simp [Response.is400] at h
  | clientError msg =>
    constructor
    · simp [analyzeEndpoint, ha]
    · simp [analyzeEndpoint, ha]

theorem c2_analysis_never_raises_wellformed_witness : 5 ≤ (pyStrip ("great job".toList)).length ∧
    (analyze_transcript_with_groq (pyStrip ("great job".toList)) .transportFailure
        = mock_analyze_transcript (pyStrip ("great job".toList)) ∧
     analyze_transcript_with_groq (pyStrip ("great job".toList)) .parseFailure
        = mock_analyze_transcript (pyStrip ("great job".toList)) ∧
     ∃ su se m, analyze true (some ("great job".toList))
          (.parsed (some ("Mad".toList)) (some ("ok".toList))) = .ok (pyStrip ("great job".toList)) su se m ∧
        se ∈ VALID_SENTIMENTS ∧ 10 ≤ su.length) :=
  ⟨by decide, c2_analysis_never_raises_wellformed true ("great job".toList)
    (.parsed (some ("Mad".toList)) (some ("ok".toList))) (by decide)⟩

theorem c3_routing_policy_and_fallback_shape_witness :
    chosenRoute true ("thank you so much".toList) = .provider ∧
    analysisDispatch true ("thank you so much".toList) .transportFailure
      = analyze_transcript_with_groq ("thank you so much".toList) .transportFailure ∧
    chosenRoute true ("thanks".toList) = .fallbackRoute ∧
    analysisDispatch true ("thanks".toList) .transportFailure
      = mock_analyze_transcript ("thanks".toList) :=
  ⟨by decide,
   (c3_routing_policy_and_fallback_shape true ("thank you so much".toList) .transportFailure).2.2.1 (by decide),
   by decide,
   (c3_routing_policy_and_fallback_shape true ("thanks".toList) .transportFailure).2.1 (by decide)⟩

theorem c4_provider_response_sanitized_witness :
    (analyze_transcript_with_groq ("This is broken and I am furious, I want a refund".toList)
        (.parsed (some ("Mad".toList)) (some ("ok".toList)))).sentiment
      = (fallback_sentiment_analysis ("This is broken and I am furious, I want a refund".toList)).toText ∧
    (analyze_transcript_with_groq ("This is broken and I am furious, I want a refund".toList)
        (.parsed (some ("Mad".toList)) (some ("ok".toList)))).summary
      = genSummary ((analyze_transcript_with_groq ("This is broken and I am furious, I want a refund".toList)
          (.parsed (some ("Mad".toList)) (some ("ok".toList)))).sentiment) ∧
    fallback_sentiment_analysis ("This is broken and I am furious, I want a refund".toList)
      = Sentiment.Negative :=
  ⟨(c4_provider_response_sanitized ("This is broken and I am furious, I want a refund".toList)
      (some ("Mad".toList)) (some ("ok".toList))).2.1 ("Mad".toList) rfl (by decide),
   (c4_provider_response_sanitized ("This is broken and I am furious, I want a refund".toList)
      (some ("Mad".toList)) (some ("ok".toList))).2.2.2.2.1 ("ok".toList) rfl (by decide),
   by decide⟩

set_option maxRecDepth 10000 in
theorem c6_transcript_truncation_law_witness :
    500 < (List.replicate 501 'a').length ∧
    truncatedTranscript (List.replicate 501 'a')
      = (List.replicate 501 'a').take 500 ++ "...".toList ∧
    truncatedTranscript ("hello".toList) = "hello".toList :=
  ⟨by simp,
   (c6_transcript_truncation_law true (List.replicate 501 'a') [] []).2.1 (by simp),
   (c6_transcript_truncation_law true ("hello".toList) [] []).2.2 (by decide)⟩

theorem c7_append_only_header_plus_rows_witness :
    appendRecords none [⟨true, "hi".toList, "sum".toList, "Positive".toList⟩]
      = some (CSV_HEADER ::
          [rowOfRecord ⟨true, "hi".toList, "sum".toList, "Positive".toList⟩]) ∧
    (CSV_HEADER :: [rowOfRecord ⟨true, "hi".toList, "sum".toList, "Positive".toList⟩]).length = 2 :=
  ⟨(c7_append_only_header_plus_rows [⟨true, "hi".toList, "sum".toList, "Positive".toList⟩]
      (List.cons_ne_nil _ _)).1,
   by decide⟩

theorem c9_method_reflects_client_flag_witness :
    analyze true (some ("thank you".toList)) (.parsed none none) =
      .ok (pyStrip ("thank you".toList))
        (mock_analyze_transcript (pyStrip ("thank you".toList))).summary
        (mock_analyze_transcript (pyStrip ("thank you".toList))).sentiment ("Groq API".toList) ∧
    analyze true (some ("thank you".toList)) .transportFailure =
      .ok (pyStrip ("thank you".toList))
        (mock_analyze_transcript (pyStrip ("thank you".toList))).summary
        (mock_analyze_transcript (pyStrip ("thank you".toList))).sentiment ("Groq API".toList) :=
  ⟨(c9_method_reflects_client_flag ("thank you".toList) (.parsed none none) (by decide)).2.2.1 (by decide),
   (c9_method_reflects_client_flag ("thank you".toList) (.parsed none none) (by decide)).2.2.2⟩

theorem c10_validation_failure_leaves_log_unchanged_witness :
    (analyzeEndpoint true none .transportFailure (some [CSV_HEADER])).2 = some [CSV_HEADER] ∧
    (analyzeEndpoint true none .transportFailure (some [CSV_HEADER])).1
      = analyze true none .transportFailure :=
  c10_validation_failure_leaves_log_unchanged true none .transportFailure (some [CSV_HEADER]) (by decide)
